import Mathlib

/-!
Shallow embedding of the backend in `src/main.py` (a FastAPI service that
persists uploaded files to disk), together with theorems about the claims
of the specification.

Modelling conventions:
* bytes are `List Nat`;
* the filesystem is a record of created directory paths and a list of
  `(path, bytes)` write records, most recent first; a read returns the most
  recent write for a path (`open(..., "wb")` truncates, so the latest write
  wins);
* `datetime.utcnow()` is an environment-supplied clock: `_save_files`
  receives `clock : Nat → DT`, with `clock i` the datetime observed at the
  i-th loop iteration, and handlers receive a separate `now : DT` for their
  own `utcnow()` call;
* possible I/O failures of the per-file `open`/`write` are an
  environment-supplied oracle `fail : Nat → Option String`: `some msg` means
  the i-th write raises an exception with text `msg`;
* Python string truthiness (`x or "file"`, `if _os.getenv(...)`) treats the
  empty string and `None` as falsy, which is modelled explicitly.
-/

namespace MainPy

abbrev Bytes := List Nat

/-- An `UploadFile` as `_save_files` consumes it: the client-supplied
`filename` (`none` models Python `None`) and the bytes `f.file.read()`
returns at call time. -/
structure UploadFile where
  filename : Option String
  content : Bytes

instance : Inhabited UploadFile := ⟨⟨none, []⟩⟩

/-- A UTC datetime as observed by `datetime.utcnow()`; only the fields that
`%Y%m%d%H%M%S%f` prints are modelled. -/
structure DT where
  year : Nat
  month : Nat
  day : Nat
  hour : Nat
  minute : Nat
  second : Nat
  microsecond : Nat

/-- Zero-padded fixed-width decimal rendering, as `strftime` does for each
field: exactly `w` characters, most significant digit first. -/
def padNum (w n : Nat) : String :=
  ⟨(List.range w).reverse.map fun i => Char.ofNat (48 + n / 10 ^ i % 10)⟩

/-- `datetime.utcnow().strftime("%Y%m%d%H%M%S%f")` (line 89). -/
def strftimeTs (t : DT) : String :=
  padNum 4 t.year ++ padNum 2 t.month ++ padNum 2 t.day ++ padNum 2 t.hour ++
    padNum 2 t.minute ++ padNum 2 t.second ++ padNum 6 t.microsecond

/-- `datetime.utcnow().strftime('%Y%m%d')` (line 126). -/
def strftimeDate (t : DT) : String :=
  padNum 4 t.year ++ padNum 2 t.month ++ padNum 2 t.day

/-- Python `s.replace(a, b)` for single-character `a`, `b`: every occurrence
is replaced. -/
def pyReplaceChar (s : String) (a b : Char) : String :=
  ⟨s.data.map fun c => if c = a then b else c⟩

/-- `filename.replace("/", "_").replace("\\", "_")` (line 90). -/
def sanitizeName (filename : String) : String :=
  pyReplaceChar (pyReplaceChar filename '/' '_') '\\' '_'

/-- Python `s or dflt` for an optional string: `None` and `""` are falsy
(line 88: `f.filename or "file"`). -/
def pyOrStr (s : Option String) (dflt : String) : String :=
  match s with
  | none => dflt
  | some v => if v = "" then dflt else v

/-- `os.path.join` for the relative second components used here. -/
def ospJoin (a b : String) : String := a ++ "/" ++ b

/-- `UPLOAD_DIR = os.path.join(os.getcwd(), "uploads")` (line 77); the
current working directory is a parameter. -/
def UPLOAD_DIR (cwd : String) : String := ospJoin cwd "uploads"

/-- The filesystem: directories created so far and write records, most
recent first. -/
structure FS where
  dirs : List String
  files : List (String × Bytes)

/-- `open(p, "wb"); out.write(c)`: record the write (latest first). -/
def FS.write (fs : FS) (p : String) (c : Bytes) : FS :=
  ⟨fs.dirs, (p, c) :: fs.files⟩

def lookupBytes : List (String × Bytes) → String → Option Bytes
  | [], _ => none
  | (q, c) :: rest, p => if q = p then some c else lookupBytes rest p

/-- Contents of the file at `p`: the most recent write, if any. -/
def FS.read (fs : FS) (p : String) : Option Bytes :=
  lookupBytes fs.files p

/-- `os.makedirs(d, exist_ok=True)` (line 86), recorded at the granularity
of the requested directory path. -/
def FS.mkdirs (fs : FS) (d : String) : FS :=
  ⟨if fs.dirs.contains d then fs.dirs else d :: fs.dirs, fs.files⟩

/-- The output basename built for the file at loop index `i`
(lines 88-91): `f"{ts}_{safe_name}"`. -/
def outName (clock : Nat → DT) (i : Nat) (f : UploadFile) : String :=
  strftimeTs (clock i) ++ "_" ++ sanitizeName (pyOrStr f.filename "file")

/-- The `for f in files` loop of `_save_files` (lines 87-94): `i` is the
absolute loop index (feeding the clock and failure oracle); on a write
failure the exception text and the filesystem at that moment propagate. -/
def saveLoop (clock : Nat → DT) (fail : Nat → Option String) (destDir : String) :
    List UploadFile → Nat → FS → Except (String × FS) (List String × FS)
  | [], _, fs => .ok ([], fs)
  | f :: rest, i, fs =>
    match fail i with
    | some e => .error (e, fs)
    | none =>
      let out_path := ospJoin destDir (outName clock i f)
      match saveLoop clock fail destDir rest (i + 1) (fs.write out_path f.content) with
      | .ok (ps, fsFinal) => .ok (out_path :: ps, fsFinal)
      | .error r => .error r

/-- `_save_files(files, subdir)` (lines 81-95). Returns the saved paths and
the final filesystem, or the propagated exception and the filesystem at the
moment of failure. -/
def _save_files (cwd : String) (clock : Nat → DT) (fail : Nat → Option String)
    (files : List UploadFile) (subdir : String) (fs : FS) :
    Except (String × FS) (List String × FS) :=
  if files.isEmpty then .ok ([], fs)
  else
    let dest_dir := ospJoin (UPLOAD_DIR cwd) subdir
    saveLoop clock fail dest_dir files 0 (fs.mkdirs dest_dir)

/-- Pure companion of `saveLoop`: the paths it produces. -/
def outPaths (clock : Nat → DT) (destDir : String) : List UploadFile → Nat → List String
  | [], _ => []
  | f :: rest, i => ospJoin destDir (outName clock i f) :: outPaths clock destDir rest (i + 1)

/-- Pure companion of `saveLoop`: the filesystem after all writes. -/
def writeAll (clock : Nat → DT) (destDir : String) : List UploadFile → Nat → FS → FS
  | [], _, fs => fs
  | f :: rest, i, fs =>
    writeAll clock destDir rest (i + 1) (fs.write (ospJoin destDir (outName clock i f)) f.content)

/-- One of the optional upload fields `files_0..files_3` of `submit_plan`:
FastAPI delivers `None`, a single `UploadFile`, or a list of them. -/
inductive FileField where
  | absent
  | one (f : UploadFile)
  | many (l : List UploadFile)

/-- Python truthiness of a field value (`if batch:` on line 113): `None` and
the empty list are falsy, a single `UploadFile` object and a non-empty list
are truthy. -/
def fieldTruthy : FileField → Bool
  | .absent => false
  | .one _ => true
  | .many l => !l.isEmpty

/-- Normalisation on lines 115-118: a list is kept, a single file is wrapped
into a one-element list (`absent` never reaches this point). -/
def fieldToList : FileField → List UploadFile
  | .absent => []
  | .one f => [f]
  | .many l => l

/-- Lines 111-121 of `submit_plan`: collect the truthy groups in slot order,
normalise each to a list, and flatten. -/
def flattenUploads (f0 f1 f2 f3 : FileField) : List UploadFile :=
  (([f0, f1, f2, f3].filter fieldTruthy).map fieldToList).flatten

/-- The JSON `data` payload of a successful `submit_plan` response
(lines 131-138). -/
structure PlanPayload where
  plan : String
  max_photos : Int
  brand : String
  email : String
  products : Option Int
  saved_count : Nat

/-- Outcome of `submit_plan`: the `{"ok": True, "message": ..., "data": ...}`
JSON response, or an `HTTPException` with status and detail. -/
inductive PlanResult where
  | success (message : String) (data : PlanPayload)
  | httpError (status : Nat) (detail : String)

/-- `submit_plan` (lines 98-143). `now` is the `utcnow()` observed on
line 126; `clock`/`fail` drive `_save_files` as above. The
`except HTTPException: raise` branch re-raises the 422, and any exception
out of `_save_files` becomes a 500 carrying the exception text. -/
def submit_plan (cwd : String) (now : DT) (clock : Nat → DT) (fail : Nat → Option String)
    (plan : String) (max_photos : Int) (brand : String) (email : String)
    (products : Option Int) (f0 f1 f2 f3 : FileField) (fs : FS) : PlanResult × FS :=
  let all_uploads := flattenUploads f0 f1 f2 f3
  if all_uploads.isEmpty then
    (.httpError 422 "Nenhum ficheiro enviado", fs)
  else
    let subdir := "plan_" ++ plan ++ "_" ++ strftimeDate now
    match _save_files cwd clock fail all_uploads subdir fs with
    | .ok (saved, fsOut) =>
      (.success "Recebido"
        { plan := plan, max_photos := max_photos, brand := brand, email := email,
          products := products, saved_count := saved.length }, fsOut)
    | .error (e, fsOut) => (.httpError 500 e, fsOut)

/-- The JSON `data` payload of a successful `custom_request` response
(lines 157-162). -/
structure CustomPayload where
  description : String
  brand : String
  email : String
  saved_count : Nat

/-- Outcome of `custom_request`. -/
inductive CustomResult where
  | success (message : String) (data : CustomPayload)
  | httpError (status : Nat) (detail : String)

/-- `custom_request` (lines 146-165): persists the optional `reference`
file under the fixed subdirectory `"custom"`; any exception becomes a 500. -/
def custom_request (cwd : String) (clock : Nat → DT) (fail : Nat → Option String)
    (description : String) (brand : String) (email : String)
    (reference : Option UploadFile) (fs : FS) : CustomResult × FS :=
  match reference with
  | none =>
    (.success "Pedido recebido"
      { description := description, brand := brand, email := email, saved_count := 0 }, fs)
  | some f =>
    match _save_files cwd clock fail [f] "custom" fs with
    | .ok (saved, fsOut) =>
      (.success "Pedido recebido"
        { description := description, brand := brand, email := email,
          saved_count := saved.length }, fsOut)
    | .error (e, fsOut) => (.httpError 500 e, fsOut)

/-- The optional database handle `db` as `test_database` probes it:
whether it has a `name` attribute (and its value), and the outcome of
`db.list_collection_names()` (`error` carries `str(e)`). -/
structure DB where
  name : Option String
  listCollections : Except String (List String)

/-- Outcome of `from database import db` (line 44): an `ImportError`, some
other exception (carrying `str(e)`), or success with `db` possibly `None`. -/
inductive ImportOutcome where
  | importError
  | otherError (msg : String)
  | ok (db : Option DB)

/-- Environment of `test_database`: the import outcome and the values of
`DATABASE_URL` / `DATABASE_NAME` (`none` models unset). -/
structure Env where
  importDb : ImportOutcome
  dbUrl : Option String
  dbName : Option String

/-- Python truthiness of `os.getenv(...)`: unset (`None`) and the empty
string are falsy. -/
def pyTruthy : Option String → Bool
  | none => false
  | some v => if v = "" then false else true

/-- `str(e)[:50]`. -/
def trunc50 (s : String) : String := ⟨s.data.take 50⟩

/-- The JSON object `test_database` returns (lines 33-40). -/
structure TestResp where
  backend : String
  database : String
  database_url : Option String
  database_name : Option String
  connection_status : String
  collections : List String

/-- `test_database` (lines 30-73): the initial dict, the try/except probe
mutating it, and the final unconditional overwrite of `database_url` and
`database_name` from the environment variables (lines 70-71). -/
def test_database (env : Env) : TestResp :=
  let response : TestResp :=
    ⟨"✅ Running", "❌ Not Available", none, none, "Not Connected", []⟩
  let response : TestResp :=
    match env.importDb with
    | .ok (some db) =>
      let r1 : TestResp :=
        ⟨response.backend, "✅ Available", some "✅ Configured",
         some (match db.name with | some n => n | none => "✅ Connected"),
         "Connected", response.collections⟩
      match db.listCollections with
      | .ok cols =>
        ⟨r1.backend, "✅ Connected & Working", r1.database_url, r1.database_name,
         r1.connection_status, cols.take 10⟩
      | .error e =>
        ⟨r1.backend, "⚠️  Connected but Error: " ++ trunc50 e, r1.database_url,
         r1.database_name, r1.connection_status, r1.collections⟩
    | .ok none =>
      ⟨response.backend, "⚠️  Available but not initialized", response.database_url,
       response.database_name, response.connection_status, response.collections⟩
    | .importError =>
      ⟨response.backend, "❌ Database module not found (run enable-database first)",
       response.database_url, response.database_name, response.connection_status,
       response.collections⟩
    | .otherError e =>
      ⟨response.backend, "❌ Error: " ++ trunc50 e, response.database_url,
       response.database_name, response.connection_status, response.collections⟩
  ⟨response.backend, response.database,
   some (if pyTruthy env.dbUrl then "✅ Set" else "❌ Not Set"),
   some (if pyTruthy env.dbName then "✅ Set" else "❌ Not Set"),
   response.connection_status, response.collections⟩

theorem string_data_inj {a b : String} (h : a.data = b.data) : a = b := by
  cases a; cases b; exact congrArg String.mk h

theorem padNum_data_length (w n : Nat) : (padNum w n).data.length = w := by
  simp [padNum]

theorem mem_padNum_digit {c : Char} {w n : Nat} (h : c ∈ (padNum w n).data) :
    ∃ d, d < 10 ∧ c = Char.ofNat (48 + d) := by
  simp only [padNum, List.mem_map, List.mem_reverse, List.mem_range] at h
  obtain ⟨i, _, rfl⟩ := h
  exact ⟨n / 10 ^ i % 10, Nat.mod_lt _ (by norm_num), rfl⟩

theorem digit_ne_sep {d : Nat} (hd : d < 10) :
    Char.ofNat (48 + d) ≠ '/' ∧ Char.ofNat (48 + d) ≠ '\\' := by
  interval_cases d <;> exact ⟨by decide, by decide⟩

theorem mem_padNum_ne_sep {c : Char} {w n : Nat} (h : c ∈ (padNum w n).data) :
    c ≠ '/' ∧ c ≠ '\\' := by
  obtain ⟨d, hd, rfl⟩ := mem_padNum_digit h
  exact digit_ne_sep hd

theorem padNum_length (w n : Nat) : (padNum w n).length = w := by
  have h : (padNum w n).length = (padNum w n).data.length := rfl
  rw [h, padNum_data_length]

theorem strftimeTs_data_length (t : DT) : (strftimeTs t).data.length = 20 := by
  simp [strftimeTs, String.data_append, padNum_length]

theorem mem_strftimeTs_ne_sep {c : Char} {t : DT} (h : c ∈ (strftimeTs t).data) :
    c ≠ '/' ∧ c ≠ '\\' := by
  simp only [strftimeTs, String.data_append, List.mem_append] at h
  rcases h with ((((((h | h) | h) | h) | h) | h) | h) <;> exact mem_padNum_ne_sep h

theorem mem_sanitizeName_ne_sep {c : Char} {s : String}
    (h : c ∈ (sanitizeName s).data) : c ≠ '/' ∧ c ≠ '\\' := by
  simp only [sanitizeName, pyReplaceChar, List.mem_map] at h
  obtain ⟨c1, ⟨c0, _, rfl⟩, rfl⟩ := h
  by_cases h0 : c0 = '/'
  · simp [h0]
  · by_cases h1 : c0 = '\\' <;> simp [h0, h1]

theorem outName_data (clock : Nat → DT) (i : Nat) (f : UploadFile) :
    (outName clock i f).data =
      (strftimeTs (clock i)).data ++
        '_' :: (sanitizeName (pyOrStr f.filename "file")).data := by
  simp [outName, String.data_append]

theorem mem_outName_ne_sep {c : Char} {clock : Nat → DT} {i : Nat} {f : UploadFile}
    (h : c ∈ (outName clock i f).data) : c ≠ '/' ∧ c ≠ '\\' := by
  rw [outName_data] at h
  rcases List.mem_append.1 h with h | h
  · exact mem_strftimeTs_ne_sep h
  · rcases List.mem_cons.1 h with rfl | h
    · exact ⟨by decide, by decide⟩
    · exact mem_sanitizeName_ne_sep h

theorem outName_ts_eq {clock : Nat → DT} {i j : Nat} {f g : UploadFile}
    (h : outName clock i f = outName clock j g) :
    strftimeTs (clock i) = strftimeTs (clock j) := by
  have hd := congrArg String.data h
  rw [outName_data, outName_data] at hd
  exact string_data_inj
    (List.append_inj hd (by rw [strftimeTs_data_length, strftimeTs_data_length])).1

theorem ospJoin_right_inj {d x y : String} (h : ospJoin d x = ospJoin d y) : x = y := by
  have hd := congrArg String.data h
  rw [show ospJoin d x = (d ++ "/") ++ x from rfl, show ospJoin d y = (d ++ "/") ++ y from rfl,
    String.data_append, String.data_append] at hd
  exact string_data_inj (List.append_cancel_left hd)

theorem outPaths_length (clock : Nat → DT) (destDir : String) :
    ∀ (l : List UploadFile) (i : Nat), (outPaths clock destDir l i).length = l.length
  | [], _ => rfl
  | _ :: rest, i => by
    simp [outPaths, outPaths_length clock destDir rest (i + 1)]

theorem outPaths_getD (clock : Nat → DT) (destDir : String) :
    ∀ (l : List UploadFile) (i j : Nat), j < l.length →
      (outPaths clock destDir l i).getD j "" =
        ospJoin destDir (outName clock (i + j) (l.getD j default))
  | _ :: _, _, 0, _ => by simp [outPaths]
  | _ :: rest, i, j + 1, h => by
    have ih := outPaths_getD clock destDir rest (i + 1) j (by simpa using Nat.lt_of_succ_lt_succ h)
    rw [show i + (j + 1) = i + 1 + j from by omega]
    simpa [outPaths] using ih

theorem mem_outPaths {clock : Nat → DT} {destDir p : String} :
    ∀ {l : List UploadFile} {i : Nat}, p ∈ outPaths clock destDir l i →
      ∃ j f, j < l.length ∧ p = ospJoin destDir (outName clock (i + j) f)
  | [], _, h => by simp [outPaths] at h
  | f :: rest, i, h => by
    rcases List.mem_cons.1 h with rfl | h
    · exact ⟨0, f, by simp, by simp⟩
    · obtain ⟨j, g, hj, hp⟩ := mem_outPaths h
      exact ⟨j + 1, g, by simpa using Nat.succ_lt_succ hj,
        by rw [hp]; congr 2; omega⟩

theorem outPaths_nodup (clock : Nat → DT) (destDir : String) :
    ∀ (l : List UploadFile) (i : Nat),
      (∀ j k, j < l.length → k < l.length → j ≠ k →
        strftimeTs (clock (i + j)) ≠ strftimeTs (clock (i + k))) →
      (outPaths clock destDir l i).Nodup
  | [], _, _ => List.nodup_nil
  | f :: rest, i, H => by
    refine List.Nodup.cons ?_ (outPaths_nodup clock destDir rest (i + 1) ?_)
    · intro hmem
      obtain ⟨j, g, hj, hp⟩ := mem_outPaths hmem
      have hts := outName_ts_eq (ospJoin_right_inj hp)
      have hne : strftimeTs (clock (i + 0)) ≠ strftimeTs (clock (i + (j + 1))) :=
        H 0 (j + 1) (by simp) (by simpa using Nat.succ_lt_succ hj) (by omega)
      rw [show i + 0 = i from rfl, show i + (j + 1) = i + 1 + j from by omega] at hne
      exact hne hts
    · intro j k hj hk hjk
      have hne := H (j + 1) (k + 1) (by simpa using Nat.succ_lt_succ hj)
        (by simpa using Nat.succ_lt_succ hk) (by omega)
      rw [show i + (j + 1) = i + 1 + j from by omega,
        show i + (k + 1) = i + 1 + k from by omega] at hne
      exact hne

theorem read_write_self (fs : FS) (p : String) (c : Bytes) :
    (fs.write p c).read p = some c := by
  simp [FS.write, FS.read, lookupBytes]

theorem read_write_ne {p q : String} (fs : FS) (c : Bytes) (h : p ≠ q) :
    (fs.write p c).read q = fs.read q := by
  simp [FS.write, FS.read, lookupBytes, h]

theorem read_writeAll_not_mem (clock : Nat → DT) (destDir : String) :
    ∀ (l : List UploadFile) (i : Nat) (fs : FS) {p : String},
      p ∉ outPaths clock destDir l i →
      (writeAll clock destDir l i fs).read p = fs.read p
  | [], _, _, _, _ => rfl
  | f :: rest, i, fs, p, h => by
    have hne : ospJoin destDir (outName clock i f) ≠ p := by
      intro he
      exact h (he ▸ List.mem_cons_self _ _)
    have hnm : p ∉ outPaths clock destDir rest (i + 1) := fun hm =>
      h (List.mem_cons_of_mem _ hm)
    rw [show writeAll clock destDir (f :: rest) i fs =
        writeAll clock destDir rest (i + 1)
          (fs.write (ospJoin destDir (outName clock i f)) f.content) from rfl,
      read_writeAll_not_mem clock destDir rest (i + 1) _ hnm,
      read_write_ne _ _ hne]

theorem read_writeAll_getD (clock : Nat → DT) (destDir : String) :
    ∀ (l : List UploadFile) (i : Nat) (fs : FS) (j : Nat),
      (outPaths clock destDir l i).Nodup → j < l.length →
      (writeAll clock destDir l i fs).read ((outPaths clock destDir l i).getD j "") =
        some ((l.getD j default).content)
  | f :: rest, i, fs, 0, hnd, _ => by
    have hnm : ospJoin destDir (outName clock i f) ∉ outPaths clock destDir rest (i + 1) :=
      (List.nodup_cons.1 hnd).1
    rw [show (outPaths clock destDir (f :: rest) i).getD 0 "" =
        ospJoin destDir (outName clock i f) from rfl,
      show writeAll clock destDir (f :: rest) i fs =
        writeAll clock destDir rest (i + 1)
          (fs.write (ospJoin destDir (outName clock i f)) f.content) from rfl,
      read_writeAll_not_mem clock destDir rest (i + 1) _ hnm, read_write_self]
    rfl
  | f :: rest, i, fs, j + 1, hnd, h => by
    have := read_writeAll_getD clock destDir rest (i + 1)
      (fs.write (ospJoin destDir (outName clock i f)) f.content) j
      (List.nodup_cons.1 hnd).2 (by simpa using Nat.lt_of_succ_lt_succ h)
    simpa [outPaths, writeAll] using this

theorem saveLoop_ok_of_noFail (clock : Nat → DT) (fail : Nat → Option String)
    (destDir : String) :
    ∀ (l : List UploadFile) (i : Nat) (fs : FS),
      (∀ j, j < l.length → fail (i + j) = none) →
      saveLoop clock fail destDir l i fs =
        .ok (outPaths clock destDir l i, writeAll clock destDir l i fs)
  | [], _, _, _ => rfl
  | f :: rest, i, fs, h => by
    have h0 : fail i = none := by simpa using h 0 (by simp)
    have hrec := saveLoop_ok_of_noFail clock fail destDir rest (i + 1)
      (fs.write (ospJoin destDir (outName clock i f)) f.content)
      (fun j hj => by
        have hs := h (j + 1) (by simpa using Nat.succ_lt_succ hj)
        rw [show i + 1 + j = i + (j + 1) from by omega]
        exact hs)
    simp [saveLoop, h0, hrec, outPaths, writeAll]

theorem saveLoop_ok_elim (clock : Nat → DT) (fail : Nat → Option String)
    (destDir : String) :
    ∀ (l : List UploadFile) (i : Nat) (fs : FS) {ps : List String} {fsOut : FS},
      saveLoop clock fail destDir l i fs = .ok (ps, fsOut) →
      ps = outPaths clock destDir l i ∧ fsOut = writeAll clock destDir l i fs
  | [], _, _, ps, fsOut, h => by
    simp only [saveLoop, Except.ok.injEq, Prod.mk.injEq] at h
    exact ⟨h.1.symm, h.2.symm⟩
  | f :: rest, i, fs, ps, fsOut, h => by
    rw [saveLoop] at h
    cases hf : fail i with
    | some e => rw [hf] at h; exact absurd h (by simp)
    | none =>
      rw [hf] at h
      simp only at h
      cases hrec : saveLoop clock fail destDir rest (i + 1)
          (fs.write (ospJoin destDir (outName clock i f)) f.content) with
      | error r => rw [hrec] at h; exact absurd h (by simp)
      | ok v =>
        obtain ⟨ps', fs'⟩ := v
        rw [hrec] at h
        simp only [Except.ok.injEq, Prod.mk.injEq] at h
        obtain ⟨hps, hfs⟩ := h
        obtain ⟨h1, h2⟩ := saveLoop_ok_elim clock fail destDir rest (i + 1) _ hrec
        subst hps hfs
        exact ⟨by rw [h1]; rfl, by rw [h2]; rfl⟩

theorem saveLoop_error_at (clock : Nat → DT) (fail : Nat → Option String)
    (destDir : String) :
    ∀ (l : List UploadFile) (k i : Nat) (fs : FS) {e : String},
      k < l.length → (∀ j, j < k → fail (i + j) = none) → fail (i + k) = some e →
      saveLoop clock fail destDir l i fs =
        .error (e, writeAll clock destDir (l.take k) i fs)
  | f :: rest, 0, i, fs, e, _, _, hk => by
    have : fail i = some e := by simpa using hk
    simp [saveLoop, this, writeAll]
  | f :: rest, k + 1, i, fs, e, hlen, hpre, hk => by
    have h0 : fail i = none := by simpa using hpre 0 (Nat.succ_pos k)
    have hrec := saveLoop_error_at clock fail destDir rest k (i + 1)
      (fs.write (ospJoin destDir (outName clock i f)) f.content)
      (by simpa using Nat.lt_of_succ_lt_succ hlen)
      (fun j hj => by
        have hs := hpre (j + 1) (by simpa using Nat.succ_lt_succ hj)
        rw [show i + 1 + j = i + (j + 1) from by omega]
        exact hs)
      (by rw [show i + 1 + k = i + (k + 1) from by omega]; exact hk)
    simp [saveLoop, h0, hrec, writeAll, List.take_succ_cons]

/-- C1 counterexample: with two items bearing the same client filename and a
clock whose two observations fall in the same microsecond, both iterations
build the same output path, so the second write overwrites the first: the path
returned for item 0 then holds item 1's bytes `[1]`, not item 0's bytes `[0]`.
The unconditional round-trip claim therefore fails on the code; it needs the
observed timestamps to be pairwise distinct. -/
theorem save_files_roundtrip_cex :
    ∃ paths fsOut,
      _save_files "/app" (fun _ => ⟨2024, 1, 2, 3, 4, 5, 6⟩) (fun _ => none)
        [⟨some "a", [0]⟩, ⟨some "a", [1]⟩] "plans" ⟨[], []⟩ = .ok (paths, fsOut) ∧
      ¬ fsOut.read (paths.getD 0 "") = some [0] := by
  refine ⟨_, _, rfl, ?_⟩
  decide

/-- C1 (amended): for every non-empty list of upload items, provided no write
fails and the formatted timestamps observed for distinct items are pairwise
distinct, `_save_files` returns a list of paths of the same length and in the
same order as the input (the j-th path is built from the j-th item), and the
final filesystem holds, at each returned path, exactly the bytes of the
corresponding item. -/
theorem save_files_roundtrip (cwd : String) (clock : Nat → DT)
    (fail : Nat → Option String) (files : List UploadFile) (subdir : String)
    (fs : FS) (hne : files ≠ [])
    (hok : ∀ j, j < files.length → fail j = none)
    (hts : ∀ j, j < files.length → ∀ k, k < files.length → j ≠ k →
      strftimeTs (clock j) ≠ strftimeTs (clock k)) :
    ∃ paths fsOut,
      _save_files cwd clock fail files subdir fs = .ok (paths, fsOut) ∧
      paths.length = files.length ∧
      (∀ j, j < files.length →
        paths.getD j "" =
          ospJoin (ospJoin (UPLOAD_DIR cwd) subdir)
            (outName clock j (files.getD j default))) ∧
      (∀ j, j < files.length →
        fsOut.read (paths.getD j "") = some ((files.getD j default).content)) := by
  have hemp : files.isEmpty = false := by
    cases files with
    | nil => exact absurd rfl hne
    | cons a l => rfl
  have hloop := saveLoop_ok_of_noFail clock fail (ospJoin (UPLOAD_DIR cwd) subdir)
    files 0 (fs.mkdirs (ospJoin (UPLOAD_DIR cwd) subdir))
    (fun j hj => by simpa using hok j hj)
  refine ⟨outPaths clock (ospJoin (UPLOAD_DIR cwd) subdir) files 0,
    writeAll clock (ospJoin (UPLOAD_DIR cwd) subdir) files 0
      (fs.mkdirs (ospJoin (UPLOAD_DIR cwd) subdir)), ?_, ?_, ?_, ?_⟩
  · rw [_save_files, if_neg (by simp [hemp])]
    exact hloop
  · exact outPaths_length clock _ files 0
  · intro j hj
    rw [outPaths_getD clock _ files 0 j hj]
    simp
  · intro j hj
    have hnd := outPaths_nodup clock (ospJoin (UPLOAD_DIR cwd) subdir) files 0
      (fun j k hj hk hjk => by simpa using hts j hj k hk hjk)
    exact read_writeAll_getD clock _ files 0 _ j hnd hj

/-- Witness for C1 (amended) at a concrete input: two items, strictly
increasing microseconds. -/
theorem save_files_roundtrip_witness :
    ∃ paths fsOut,
      _save_files "/app" (fun i => ⟨2024, 1, 2, 3, 4, 5, i⟩) (fun _ => none)
        [⟨some "a.txt", [1, 2]⟩, ⟨some "b.txt", [3]⟩] "plans" ⟨[], []⟩ =
          .ok (paths, fsOut) ∧
      paths.length = 2 ∧
      (∀ j, j < 2 →
        fsOut.read (paths.getD j "") =
          some ((([⟨some "a.txt", [1, 2]⟩, ⟨some "b.txt", [3]⟩] :
            List UploadFile).getD j default).content)) := by
  obtain ⟨paths, fsOut, h1, h2, _, h4⟩ :=
    save_files_roundtrip "/app" (fun i => ⟨2024, 1, 2, 3, 4, 5, i⟩) (fun _ => none)
      [⟨some "a.txt", [1, 2]⟩, ⟨some "b.txt", [3]⟩] "plans" ⟨[], []⟩
      (List.cons_ne_nil _ _) (by decide) (by decide)
  exact ⟨paths, fsOut, h1, h2, h4⟩

/-- C2: every path returned by `_save_files` lies directly inside
`UPLOAD_DIR/subdir`: it is `UPLOAD_DIR/subdir/base` for a basename `base`
containing neither `/` nor `\`, because the timestamp prefix is all digits and
the sanitiser replaces both separators in the client filename by `_`. No
client-supplied filename can introduce additional directory levels. -/
theorem save_files_sanitized_paths (cwd : String) (clock : Nat → DT)
    (fail : Nat → Option String) (files : List UploadFile) (subdir : String)
    (fs : FS) (paths : List String) (fsOut : FS)
    (hok : _save_files cwd clock fail files subdir fs = .ok (paths, fsOut)) :
    ∀ p ∈ paths, ∃ base,
      p = ospJoin (ospJoin (UPLOAD_DIR cwd) subdir) base ∧
      ∀ c ∈ base.data, c ≠ '/' ∧ c ≠ '\\' := by
  rw [_save_files] at hok
  by_cases hemp : files.isEmpty = true
  · rw [if_pos hemp] at hok
    simp only [Except.ok.injEq, Prod.mk.injEq] at hok
    rw [← hok.1]
    intro p hp
    exact absurd hp (List.not_mem_nil p)
  · rw [if_neg hemp] at hok
    obtain ⟨hp, _⟩ := saveLoop_ok_elim clock fail _ files 0 _ hok
    subst hp
    intro p hmem
    obtain ⟨j, f, _, rfl⟩ := mem_outPaths hmem
    exact ⟨outName clock (0 + j) f, rfl, fun c hc => mem_outName_ne_sep hc⟩

/-- Witness for C2 at a concrete input whose filename contains both
separators. -/
theorem save_files_sanitized_paths_witness :
    ∃ paths fsOut,
      _save_files "/app" (fun i => ⟨2024, 1, 2, 3, 4, 5, i⟩) (fun _ => none)
        [⟨some "..\\evil/name", [9]⟩] "plans" ⟨[], []⟩ = .ok (paths, fsOut) ∧
      ∀ p ∈ paths, ∃ base,
        p = ospJoin (ospJoin (UPLOAD_DIR "/app") "plans") base ∧
        ∀ c ∈ base.data, c ≠ '/' ∧ c ≠ '\\' := by
  refine ⟨_, _, rfl, ?_⟩
  exact save_files_sanitized_paths "/app" (fun i => ⟨2024, 1, 2, 3, 4, 5, i⟩)
    (fun _ => none) [⟨some "..\\evil/name", [9]⟩] "plans" ⟨[], []⟩ _ _ rfl

/-- C3 counterexample: two uploads in one call with equal client filenames and
a clock whose two observations fall in the same microsecond produce the very
same output filename (the returned list repeats one path), so the generated
names are not unconditionally pairwise distinct: the code takes no step to
ensure the per-file timestamps differ. -/
theorem save_files_distinct_names_cex :
    ∃ paths fsOut,
      _save_files "/app" (fun _ => ⟨2024, 1, 2, 3, 4, 5, 6⟩) (fun _ => none)
        [⟨some "b", [7]⟩, ⟨some "b", [7]⟩] "plans" ⟨[], []⟩ = .ok (paths, fsOut) ∧
      paths.length = 2 ∧ paths.getD 0 "" = paths.getD 1 "" := by
  refine ⟨_, _, rfl, by decide, by decide⟩

/-- C3 (amended): in a call to `_save_files` with two or more upload items,
the generated output paths are pairwise distinct provided the per-file
formatted timestamps are pairwise distinct (the microsecond field makes
timestamps fixed-width, so distinct timestamps force distinct filenames). -/
theorem save_files_distinct_names (cwd : String) (clock : Nat → DT)
    (fail : Nat → Option String) (files : List UploadFile) (subdir : String)
    (fs : FS) (paths : List String) (fsOut : FS)
    (_h2 : 2 ≤ files.length)
    (hts : ∀ j, j < files.length → ∀ k, k < files.length → j ≠ k →
      strftimeTs (clock j) ≠ strftimeTs (clock k))
    (hok : _save_files cwd clock fail files subdir fs = .ok (paths, fsOut)) :
    paths.Nodup := by
  rw [_save_files] at hok
  by_cases hemp : files.isEmpty = true
  · rw [if_pos hemp] at hok
    simp only [Except.ok.injEq, Prod.mk.injEq] at hok
    rw [← hok.1]
    exact List.nodup_nil
  · rw [if_neg hemp] at hok
    obtain ⟨hp, _⟩ := saveLoop_ok_elim clock fail _ files 0 _ hok
    subst hp
    exact outPaths_nodup clock _ files 0
      (fun j k hj hk hjk => by simpa using hts j hj k hk hjk)

/-- Witness for C3 (amended) at a concrete input: two same-named items,
distinct microseconds. -/
theorem save_files_distinct_names_witness :
    ∃ paths fsOut,
      _save_files "/app" (fun i => ⟨2024, 1, 2, 3, 4, 5, i⟩) (fun _ => none)
        [⟨some "b", [7]⟩, ⟨some "b", [7]⟩] "plans" ⟨[], []⟩ = .ok (paths, fsOut) ∧
      paths.Nodup := by
  refine ⟨_, _, rfl, ?_⟩
  exact save_files_distinct_names "/app" (fun i => ⟨2024, 1, 2, 3, 4, 5, i⟩)
    (fun _ => none) [⟨some "b", [7]⟩, ⟨some "b", [7]⟩] "plans" ⟨[], []⟩ _ _
    (by decide) (by decide) rfl

/-- C4: on the empty list `_save_files` returns the empty list and leaves the
filesystem untouched: the `if not files` guard returns before `os.makedirs`,
so no file is written and no directory (including the destination
subdirectory) is created. -/
theorem save_files_empty (cwd : String) (clock : Nat → DT)
    (fail : Nat → Option String) (subdir : String) (fs : FS) :
    _save_files cwd clock fail [] subdir fs = .ok ([], fs) := rfl

/-- C5: if the first write failure in a batch occurs at item `i` (all earlier
writes succeed), the exception propagates out of `_save_files` and the
filesystem at that moment is exactly the one obtained by creating the
destination directory and writing the first `i` items: prior files remain (no
rollback) and no item after the failing one is written. -/
theorem save_files_partial_failure (cwd : String) (clock : Nat → DT)
    (fail : Nat → Option String) (files : List UploadFile) (subdir : String)
    (fs : FS) (i : Nat) (e : String)
    (hi : i < files.length)
    (hpre : ∀ j, j < i → fail j = none)
    (hf : fail i = some e) :
    _save_files cwd clock fail files subdir fs =
      .error (e,
        writeAll clock (ospJoin (UPLOAD_DIR cwd) subdir) (files.take i) 0
          (fs.mkdirs (ospJoin (UPLOAD_DIR cwd) subdir))) := by
  have hemp : files.isEmpty = false := by
    cases files with
    | nil => simp at hi
    | cons a l => rfl
  rw [_save_files, if_neg (by simp [hemp])]
  exact saveLoop_error_at clock fail _ files i 0 _ hi
    (fun j hj => by simpa using hpre j hj) (by simpa using hf)

/-- Witness for C5 at a concrete input: three items, the write of item 1
raises "disk full". -/
theorem save_files_partial_failure_witness :
    _save_files "/app" (fun i => ⟨2024, 1, 2, 3, 4, 5, i⟩)
      (fun i => if i = 1 then some "disk full" else none)
      [⟨some "a", [1]⟩, ⟨some "b", [2]⟩, ⟨some "c", [3]⟩] "plans" ⟨[], []⟩ =
      .error ("disk full",
        writeAll (fun i => ⟨2024, 1, 2, 3, 4, 5, i⟩)
          (ospJoin (UPLOAD_DIR "/app") "plans")
          ([⟨some "a", [1]⟩, ⟨some "b", [2]⟩, ⟨some "c", [3]⟩].take 1) 0
          ((⟨[], []⟩ : FS).mkdirs (ospJoin (UPLOAD_DIR "/app") "plans"))) :=
  save_files_partial_failure _ _ _ _ _ _ 1 _ (by decide) (by decide) (by decide)

/-- C6: when the flattened upload sequence across `files_0..files_3` is empty
(every group absent or an empty list), `submit_plan` answers HTTP 422 with
detail "Nenhum ficheiro enviado" and the filesystem is unchanged: no file is
persisted. -/
theorem submit_plan_no_files_422 (cwd : String) (now : DT) (clock : Nat → DT)
    (fail : Nat → Option String) (plan : String) (max_photos : Int)
    (brand email : String) (products : Option Int) (f0 f1 f2 f3 : FileField)
    (fs : FS) (h : flattenUploads f0 f1 f2 f3 = []) :
    submit_plan cwd now clock fail plan max_photos brand email products
        f0 f1 f2 f3 fs =
      (.httpError 422 "Nenhum ficheiro enviado", fs) := by
  simp [submit_plan, h]

/-- Witness for C6 at a concrete input: three absent groups and one empty
list. -/
theorem submit_plan_no_files_422_witness :
    submit_plan "/app" ⟨2024, 1, 2, 3, 4, 5, 6⟩ (fun _ => ⟨2024, 1, 2, 3, 4, 5, 6⟩)
      (fun _ => none) "A" 5 "X" "a@b.com" none
      .absent .absent (.many []) .absent ⟨[], []⟩ =
      (.httpError 422 "Nenhum ficheiro enviado", ⟨[], []⟩) :=
  submit_plan_no_files_422 _ _ _ _ _ _ _ _ _ _ _ _ _ _ rfl

/-- C7: `custom_request` with no `reference` file succeeds (the `ok: true`
response with message "Pedido recebido"), echoes the input fields with
`saved_count = 0`, and leaves the filesystem unchanged: the persister is never
invoked on this path. -/
theorem custom_request_no_reference (cwd : String) (clock : Nat → DT)
    (fail : Nat → Option String) (description brand email : String) (fs : FS) :
    custom_request cwd clock fail description brand email none fs =
      (.success "Pedido recebido"
        { description := description, brand := brand, email := email,
          saved_count := 0 }, fs) := rfl

/-- C8: when `from database import db` raises `ImportError` and neither
`DATABASE_URL` nor `DATABASE_NAME` is set, `/test` reports a `database` value
containing "Database module not found" and both `database_url` and
`database_name` equal to "❌ Not Set". -/
theorem test_database_no_module_no_env (env : Env)
    (himp : env.importDb = .importError) (hu : env.dbUrl = none)
    (hn : env.dbName = none) :
    (∃ pre post,
      (test_database env).database = pre ++ "Database module not found" ++ post) ∧
    (test_database env).database_url = some "❌ Not Set" ∧
    (test_database env).database_name = some "❌ Not Set" := by
  have hdb : (test_database env).database =
      "❌ Database module not found (run enable-database first)" := by
    simp [test_database, himp]
  refine ⟨⟨"❌ ", " (run enable-database first)", ?_⟩, ?_, ?_⟩
  · rw [hdb]; decide
  · simp [test_database, hu, pyTruthy]
  · simp [test_database, hn, pyTruthy]

/-- Witness for C8 at the concrete environment with a failing import and both
variables unset. -/
theorem test_database_no_module_no_env_witness :
    (∃ pre post,
      (test_database ⟨.importError, none, none⟩).database =
        pre ++ "Database module not found" ++ post) ∧
    (test_database ⟨.importError, none, none⟩).database_url = some "❌ Not Set" ∧
    (test_database ⟨.importError, none, none⟩).database_name = some "❌ Not Set" :=
  test_database_no_module_no_env ⟨.importError, none, none⟩ rfl rfl rfl

/-- C9: an upload whose client filename is the empty string (not only `None`)
gets the placeholder name "file": the stored path's basename is the timestamp
prefix followed by "_file" (Python `f.filename or "file"` treats `""` as
falsy). -/
theorem save_files_empty_filename (cwd : String) (clock : Nat → DT)
    (fail : Nat → Option String) (files : List UploadFile) (subdir : String)
    (fs : FS) (paths : List String) (fsOut : FS) (j : Nat)
    (hj : j < files.length)
    (hfn : (files.getD j default).filename = some "")
    (hok : _save_files cwd clock fail files subdir fs = .ok (paths, fsOut)) :
    paths.getD j "" =
      ospJoin (ospJoin (UPLOAD_DIR cwd) subdir) (strftimeTs (clock j) ++ "_file") := by
  rw [_save_files] at hok
  by_cases hemp : files.isEmpty = true
  · rw [List.isEmpty_iff] at hemp
    rw [hemp] at hj
    exact absurd hj (by simp)
  · rw [if_neg hemp] at hok
    obtain ⟨hp, _⟩ := saveLoop_ok_elim clock fail _ files 0 _ hok
    subst hp
    rw [outPaths_getD clock _ files 0 j hj]
    have hname : outName clock (0 + j) (files.getD j default) =
        strftimeTs (clock j) ++ "_file" := by
      rw [outName, hfn]
      have h1 : pyOrStr (some "") "file" = "file" := by simp [pyOrStr]
      have h2 : sanitizeName "file" = "file" := by decide
      rw [h1, h2, String.append_assoc]
      simp
    rw [hname]

/-- Witness for C9 at a concrete input with an empty-string filename. -/
theorem save_files_empty_filename_witness :
    ∃ paths fsOut,
      _save_files "/app" (fun i => ⟨2024, 1, 2, 3, 4, 5, i⟩) (fun _ => none)
        [⟨some "", [5]⟩] "custom" ⟨[], []⟩ = .ok (paths, fsOut) ∧
      paths.getD 0 "" =
        ospJoin (ospJoin (UPLOAD_DIR "/app") "custom")
          (strftimeTs ⟨2024, 1, 2, 3, 4, 5, 0⟩ ++ "_file") := by
  refine ⟨_, _, rfl, ?_⟩
  exact save_files_empty_filename "/app" (fun i => ⟨2024, 1, 2, 3, 4, 5, i⟩)
    (fun _ => none) [⟨some "", [5]⟩] "custom" ⟨[], []⟩ _ _ 0
    (by decide) (by decide) rfl

/-- C10 counterexample: with `DATABASE_URL` set to the empty string — a set
environment variable — `/test` reports `database_url = "❌ Not Set"`, so the
reported flag is not determined solely by whether the variable is set: Python
`if _os.getenv(...)` treats the empty string as falsy. -/
theorem test_database_env_flags_cex :
    (⟨.importError, some "", none⟩ : Env).dbUrl.isSome = true ∧
    (test_database ⟨.importError, some "", none⟩).database_url =
      some "❌ Not Set" := by
  constructor
  · rfl
  · decide

/-- C10 (amended): in every `/test` response the `database_url` and
`database_name` fields are exactly "✅ Set" or "❌ Not Set", determined solely
by whether the corresponding environment variable is set to a non-empty
string; whatever the probe assigned earlier ("✅ Configured", the handle's
name) is always overwritten before returning. -/
theorem test_database_env_flags (env : Env) :
    ((test_database env).database_url = some "✅ Set" ∨
      (test_database env).database_url = some "❌ Not Set") ∧
    ((test_database env).database_url = some "✅ Set" ↔ pyTruthy env.dbUrl = true) ∧
    ((test_database env).database_name = some "✅ Set" ∨
      (test_database env).database_name = some "❌ Not Set") ∧
    ((test_database env).database_name = some "✅ Set" ↔
      pyTruthy env.dbName = true) := by
  have hu : (test_database env).database_url =
      some (if pyTruthy env.dbUrl then "✅ Set" else "❌ Not Set") := rfl
  have hn : (test_database env).database_name =
      some (if pyTruthy env.dbName then "✅ Set" else "❌ Not Set") := rfl
  rw [hu, hn]
  cases hpu : pyTruthy env.dbUrl <;> cases hpn : pyTruthy env.dbName <;>
    simp [hpu, hpn]

end MainPy
